import Mathlib

/-!
Shallow embedding of the PARAMOUNT KRA API proxy (`kra_api/utils.py`,
`kra_api/views.py`, `kra_api/serializers.py`) and proofs about the
token-cache and retry/refresh behaviour.

Conventions of the embedding:
* Python values that flow through the token path are modelled by `KraApi.Json`
  (the result of `response.json()` / values stored in the Django cache).
* An HTTP response carries its status code, headers, body text
  (`response.text`) and the result of `response.json()`; the `json` field is
  `none` exactly when JSON decoding of the body raises.  Concrete instances
  used in theorems are built consistently (the `json` field is the parse of
  the `body` field).
* The Django cache is an association list from cache key to (value,
  absolute expiry time); `cache.set(k, v, timeout=3600)` stores expiry
  `now + 3600` and `cache.get` returns `none` for absent or expired keys.
* Network effects are supplied by the environment: the token endpoint GET
  result is an `Option HttpResponse` (`none` models `requests.RequestException`)
  and the forwarded POSTs are a stream `Nat → PostOutcome`, consumed in order.
* Python exceptions become structured error values; the distinct `raise`
  sites of the source are kept distinct.
-/

namespace KraApi

/-- JSON values as produced by `response.json()` and stored in the cache. -/
inductive Json : Type
  | null : Json
  | bool : Bool → Json
  | num : Int → Json
  | str : String → Json
  | arr : List Json → Json
  | obj : List (String × Json) → Json

/-- Python truthiness (`if token:` / `if not access_token:`) of a JSON value. -/
def Json.truthy : Json → Bool
  | .null => false
  | .bool b => b
  | .num n => n != 0
  | .str s => s != ""
  | .arr xs => !xs.isEmpty
  | .obj fs => !fs.isEmpty

/-- First-match lookup in an association list keyed by strings
(`dict.get` for string keys). -/
def lookupStr {α : Type} : List (String × α) → String → Option α
  | [], _ => none
  | (k, v) :: rest, key => if k = key then some v else lookupStr rest key

/-- An HTTP response as seen by the Python code.  `body` is `response.text`;
`json` is the result of `response.json()`, `none` when decoding raises
(the body is not valid JSON). -/
structure HttpResponse where
  status : Nat
  headers : List (String × String)
  body : String
  json : Option Json

/-- Case-insensitive header lookup (`response.headers.get`, a
`CaseInsensitiveDict` in `requests`). -/
def headersGet : List (String × String) → String → Option String
  | [], _ => none
  | (k, v) :: rest, key => if k.toLower = key.toLower then some v else headersGet rest key

/-- Model of `response.ok` in `requests`: true iff the status code is
below 400. -/
def responseOk (r : HttpResponse) : Bool := r.status < 400

/-- The Django token cache: cache key to (stored value, absolute expiry). -/
abbrev Cache := List (String × Json × Nat)

/-- Model of Django `cache.get`: `none` when the key is absent or the entry
has expired. -/
def cacheGet (store : Cache) (now : Nat) (key : String) : Option Json :=
  match lookupStr store key with
  | some (v, expires_at) => if now < expires_at then some v else none
  | none => none

/-- Model of Django `cache.set(key, v, timeout)`: replaces any prior entry for
`key` with value `tok` expiring at `expires_at`. -/
def cacheSet (store : Cache) (key : String) (tok : Json) (expires_at : Nat) : Cache :=
  (key, tok, expires_at) :: store.filter (fun e => e.1 != key)

/-- The cache key built by `fetch_kra_token`: the Python f-string
`"kra_token_" + app_name`. -/
def cache_key (app_name : String) : String := "kra_token_" ++ app_name

/-- One entry of `settings.KRA_APPS`: token endpoint URL and Basic-auth
credentials for one app identity. -/
structure AppConfig where
  token_url : String
  consumer_key : String
  consumer_secret : String

/-- Token extraction from a successful token-endpoint response, the body of
the inner `try` of `fetch_kra_token` (utils.py lines 39-48):
`token_data = response.json()` (raises on a non-JSON body, giving `none`
here); `token_data.get("access_token")` (raises `AttributeError` when the
parsed value is not a dict, giving `none` here); when the field is absent or
falsy, fall back to the trimmed raw body text `response.text.strip()`. -/
def extract_access_token (r : HttpResponse) : Option Json :=
  match r.json with
  | none => none
  | some (.obj fields) =>
      match lookupStr fields "access_token" with
      | some v => if v.truthy then some v else some (.str r.body.trim)
      | none => some (.str r.body.trim)
  | some _ => none

/-- The distinct `raise` sites of `fetch_kra_token`:
`invalidApp` is `Exception("Invalid app selection: {app_name}")`;
`tokenRequestFailed` is `Exception("Token request failed: {response.text}")`
for a non-success status; `tokenNetworkFailed` is the
`except requests.RequestException` handler (`"Token request failed: {e}"`);
`failedToGetAccessToken` is `Exception("Failed to get access token: {e}")`
raised when decoding the body or reading the field raises. -/
inductive FetchError : Type
  | invalidApp : String → FetchError
  | tokenRequestFailed : String → FetchError
  | tokenNetworkFailed : FetchError
  | failedToGetAccessToken : FetchError

/-- Modelled from the spec (section 7 error taxonomy, the Python code raises
bare `Exception`s): an error is an `UpstreamAuthError` when the token endpoint
rejected the credentials or returned an unusable body; an unknown app is a
`ConfigError` and a transport failure a `NetworkError`, neither of which is an
`UpstreamAuthError`. -/
def FetchError.isUpstreamAuthError : FetchError → Bool
  | .tokenRequestFailed _ => true
  | .failedToGetAccessToken => true
  | .invalidApp _ => false
  | .tokenNetworkFailed => false

/-- Result of one call to `fetch_kra_token`: the returned token or the raised
error, the cache after the call, and how many network requests were issued to
the token endpoint (0 or 1). -/
structure FetchOutcome where
  result : Except FetchError Json
  cache : Cache
  networkCalls : Nat

/-- Shallow embedding of `fetch_kra_token(app_name, force_refresh)`
(utils.py lines 5-56).  `apps` is `settings.KRA_APPS`, `resp` the outcome of
the single `requests.get` to the token endpoint (`none` models a
`requests.RequestException`), `store` the Django cache and `now` the current
time.  Unless `force_refresh`, a cached truthy token is returned with no
network call; otherwise the app config is resolved (raising on an unknown
app), the endpoint is queried, a non-success status raises, the token is
extracted by `extract_access_token` (raising when extraction is impossible),
cached for 3600 seconds and returned. -/
def fetch_kra_token (apps : List (String × AppConfig)) (resp : Option HttpResponse)
    (store : Cache) (now : Nat) (app_name : String) (force_refresh : Bool) : FetchOutcome :=
  let key := cache_key app_name
  let cached : Option Json :=
    if force_refresh then none
    else match cacheGet store now key with
      | some tok => if tok.truthy then some tok else none
      | none => none
  match cached with
  | some tok => ⟨.ok tok, store, 0⟩
  | none =>
    match lookupStr apps app_name with
    | none => ⟨.error (.invalidApp app_name), store, 0⟩
    | some _cfg =>
      match resp with
      | none => ⟨.error .tokenNetworkFailed, store, 1⟩
      | some r =>
        if responseOk r then
          match extract_access_token r with
          | some tok => ⟨.ok tok, cacheSet store key tok (now + 3600), 1⟩
          | none => ⟨.error .failedToGetAccessToken, store, 1⟩
        else ⟨.error (.tokenRequestFailed r.body), store, 1⟩

/-- The headers dict built by `call_kra_endpoint` (utils.py lines 67-71) and
mutated on a 401.  `authToken` is the token interpolated into the
`Authorization: Bearer {token}` f-string. -/
structure Headers where
  contentType : String
  authToken : Json
  accept : String

/-- Headers as first built by `call_kra_endpoint` for token `tok`:
`Content-Type: application/json`, `Authorization: Bearer {tok}`,
`Accept: application/json`. -/
def mkHeaders (tok : Json) : Headers :=
  ⟨"application/json", tok, "application/json"⟩

/-- The structured fields of the `error_details` payload raised for a final
non-success response (utils.py lines 116-122).  The Python code renders them
into a nested JSON-looking string; the fields are kept structured here. -/
structure ErrorResponse where
  requestId : String
  code : Nat
  message : String
  timestamp : String

/-- Construction of the `error_details` payload from the final response:
`requestId` from the `x-request-id` response header or `"unknown"`, `code`
the HTTP status, `message` the response body text, `timestamp` from the
`date` response header or `"unknown"`. -/
def mkErrorDetails (r : HttpResponse) : ErrorResponse :=
  { requestId := (headersGet r.headers "x-request-id").getD "unknown"
    code := r.status
    message := r.body
    timestamp := (headersGet r.headers "date").getD "unknown" }

/-- The distinct failure modes of `call_kra_endpoint`:
`fetchError` propagates an exception raised by `fetch_kra_token` (initial
fetch or 401-triggered refresh); `maxRetriesReached` is
`Exception("Maximum retries reached, request timed out")`;
`upstreamError` is the structured `error_details` exception for a final
non-success response; `requestFailed` is the outer
`except requests.RequestException` handler (`"Request failed: {e}"`), also
reached when `response.json()` raises on the final success response;
`nameErrorResponse` is the `NameError` on the unbound `response` variable
when `max_retries = 0` makes the while body never run. -/
inductive CallError : Type
  | fetchError : FetchError → CallError
  | maxRetriesReached : CallError
  | upstreamError : ErrorResponse → CallError
  | requestFailed : CallError
  | nameErrorResponse : CallError

/-- Outcome of one `requests.post` in the retry loop: a response, a
`requests.Timeout`, or another `requests.RequestException`. -/
inductive PostOutcome : Type
  | response : HttpResponse → PostOutcome
  | timeout : PostOutcome
  | netError : PostOutcome

/-- The environment a `call_kra_endpoint` run interacts with:
`apps` is `settings.KRA_APPS`; `tokenResponses k` is the result of the k-th
GET actually issued to the token endpoint; `posts k` is the outcome of the
k-th POST issued to the target URL; `now` is the current time. -/
structure CallEnv where
  apps : List (String × AppConfig)
  tokenResponses : Nat → Option HttpResponse
  posts : Nat → PostOutcome
  now : Nat

/-- The mutable state of the retry loop of `call_kra_endpoint`:
`retries` is the Python `retries` counter, `headers` the (mutated on 401)
headers dict, `store` the Django cache, `tIdx` how many token-endpoint GETs
have been issued so far, `pIdx` how many POSTs have been issued so far,
`postLog` the headers each issued POST carried, `refreshes` how many
401-triggered `fetch_kra_token(force_refresh=True)` calls were made. -/
structure LoopSt where
  retries : Nat
  headers : Headers
  store : Cache
  tIdx : Nat
  pIdx : Nat
  postLog : List Headers
  refreshes : Nat

/-- State of `s` after one more POST has been issued with the current
headers. -/
def issued (s : LoopSt) : LoopSt :=
  { s with pIdx := s.pIdx + 1, postLog := s.postLog ++ [s.headers] }

/-- Result of one iteration of the while body: `next` is Python `continue`
(or falling off the body), `broke` is `break` with the response variable
bound, `raised` is an exception escaping the loop. -/
inductive StepRes : Type
  | next : LoopSt → StepRes
  | broke : HttpResponse → LoopSt → StepRes
  | raised : CallError → LoopSt → StepRes

/-- One iteration of the while body of `call_kra_endpoint`
(utils.py lines 80-113), entered with `retries < max_retries`.
A `requests.Timeout` increments `retries` and raises the maximum-retries
exception once `retries >= max_retries`; any other `RequestException`
escapes to the outer handler; a 401 response force-refreshes the token via
`fetch_kra_token` (consuming the next token-endpoint response when a network
call is made) and updates the Authorization header (an exception from the
refresh escapes the loop); a 504 increments `retries` and continues while
still under budget, otherwise breaks with the failing response; any other
status breaks immediately. -/
def loopBody (env : CallEnv) (app_name : String) (max_retries : Nat) (s : LoopSt) : StepRes :=
  match env.posts s.pIdx with
  | .timeout =>
      if max_retries ≤ s.retries + 1 then
        .raised .maxRetriesReached { issued s with retries := s.retries + 1 }
      else
        .next { issued s with retries := s.retries + 1 }
  | .netError => .raised .requestFailed (issued s)
  | .response r =>
      if r.status = 401 then
        let fo := fetch_kra_token env.apps (env.tokenResponses s.tIdx) s.store env.now app_name true
        match fo.result with
        | .ok tok =>
            .next { issued s with
                      headers := { (issued s).headers with authToken := tok }
                      store := fo.cache
                      tIdx := s.tIdx + fo.networkCalls
                      refreshes := s.refreshes + 1 }
        | .error e =>
            .raised (.fetchError e)
              { issued s with
                  store := fo.cache
                  tIdx := s.tIdx + fo.networkCalls
                  refreshes := s.refreshes + 1 }
      else if r.status = 504 then
        if s.retries + 1 < max_retries then .next { issued s with retries := s.retries + 1 }
        else .broke r { issued s with retries := s.retries + 1 }
      else .broke r (issued s)

/-- Result of running the while loop to completion (or running out of
`fuel`).  `spinning` means the loop had not terminated after `fuel`
iterations. -/
inductive LoopRes : Type
  | broke : HttpResponse → LoopSt → LoopRes
  | raised : CallError → LoopSt → LoopRes
  | spinning : LoopSt → LoopRes

/-- Fuel-indexed iteration of the while body.  Every `continue` path of the
source re-establishes `retries < max_retries` (a timeout or 504 only
continues while under budget and a 401 leaves `retries` unchanged), so
re-checking the `while retries < max_retries` condition here would be
redundant: only the initial check matters and it is performed by
`call_kra_endpoint`. -/
def runLoop (env : CallEnv) (app_name : String) (max_retries : Nat) :
    Nat → LoopSt → LoopRes
  | 0, s => .spinning s
  | fuel + 1, s =>
      match loopBody env app_name max_retries s with
      | .next s2 => runLoop env app_name max_retries fuel s2
      | .broke r s2 => .broke r s2
      | .raised e s2 => .raised e s2

/-- Final result of `call_kra_endpoint`: the parsed JSON body of the final
success response, a raised error, or (`diverged`) a loop that had not
terminated within the given fuel. -/
inductive CallResult : Type
  | ok : Json → CallResult
  | error : CallError → CallResult
  | diverged : CallResult

/-- Observable outcome of a `call_kra_endpoint` run: its result, the final
cache, the headers of every POST it issued (in order), the final value of
the `retries` counter and the number of 401-triggered token refreshes. -/
structure CallOutcome where
  result : CallResult
  store : Cache
  postLog : List Headers
  retries : Nat
  refreshes : Nat

/-- Shallow embedding of `call_kra_endpoint(url, payload, app_name,
max_retries=5, timeout=60)` (utils.py lines 59-127).  The target URL, JSON
payload and per-request timeout do not influence the control flow modelled
here (the POST outcomes are supplied by `env.posts`), so they are not
parameters.  The initial token is fetched without forcing (an exception
propagates to the caller); with `max_retries = 0` the while body never runs
and the dangling `if not response.ok` raises a `NameError` on the unbound
`response` variable; otherwise the loop runs and, on a `break`, a
non-success final response raises the structured `error_details` exception
while a success response returns its parsed JSON body
(`response.json()` raising there is caught by the outer
`except requests.RequestException` handler). -/
def call_kra_endpoint (env : CallEnv) (store : Cache) (app_name : String)
    (max_retries : Nat) (fuel : Nat) : CallOutcome :=
  let f0 := fetch_kra_token env.apps (env.tokenResponses 0) store env.now app_name false
  match f0.result with
  | .error e => ⟨.error (.fetchError e), f0.cache, [], 0, 0⟩
  | .ok tok =>
    if max_retries = 0 then ⟨.error .nameErrorResponse, f0.cache, [], 0, 0⟩
    else
      match runLoop env app_name max_retries fuel
          ⟨0, mkHeaders tok, f0.cache, f0.networkCalls, 0, [], 0⟩ with
      | .spinning s => ⟨.diverged, s.store, s.postLog, s.retries, s.refreshes⟩
      | .raised e s => ⟨.error e, s.store, s.postLog, s.retries, s.refreshes⟩
      | .broke r s =>
          if responseOk r then
            match r.json with
            | some j => ⟨.ok j, s.store, s.postLog, s.retries, s.refreshes⟩
            | none => ⟨.error .requestFailed, s.store, s.postLog, s.retries, s.refreshes⟩
          else ⟨.error (.upstreamError (mkErrorDetails r)), s.store, s.postLog, s.retries, s.refreshes⟩

/-- Validation performed by `TokenRequestSerializer` (serializers.py): the
optional `app` field must be one of the choices `"app1"`/`"app2"` and
defaults to `"app1"` when absent; `none` means validation failed. -/
def validate_token_request (appField : Option String) : Option String :=
  match appField with
  | none => some "app1"
  | some s => if s = "app1" || s = "app2" then some s else none

/-- The three response shapes `GetTokenView.post` can produce: 200 with
`{access_token: token}`, 400 with the serializer errors, or 500 with the
stringified exception. -/
inductive ViewResponse : Type
  | ok200 : Json → ViewResponse
  | badRequest : ViewResponse
  | serverError : FetchError → ViewResponse

/-- Observable outcome of one `GetTokenView.post` call: the HTTP response,
the cache afterwards and the number of token-endpoint network calls
issued. -/
structure ViewOutcome where
  response : ViewResponse
  store : Cache
  networkCalls : Nat

/-- Shallow embedding of `GetTokenView.post` (views.py lines 45-57):
validate the request body with `TokenRequestSerializer` (400 on failure),
then call `fetch_kra_token(app, force_refresh=True)` — the view always
forces a refresh — returning 200 with the token or 500 with the raised
error. -/
def get_token_view_post (apps : List (String × AppConfig)) (resp : Option HttpResponse)
    (store : Cache) (now : Nat) (appField : Option String) : ViewOutcome :=
  match validate_token_request appField with
  | none => ⟨.badRequest, store, 0⟩
  | some app =>
      let fo := fetch_kra_token apps resp store now app true
      match fo.result with
      | .ok tok => ⟨.ok200 tok, fo.cache, fo.networkCalls⟩
      | .error e => ⟨.serverError e, fo.cache, fo.networkCalls⟩

/-! Concrete fixtures used by witnesses and counterexamples. -/

/-- A sample app identity, standing for the `app1` entry of
`settings.KRA_APPS`. -/
def cfgA : AppConfig := ⟨"https://sbx.kra.example/token", "ckey", "csecret"⟩

/-- A `settings.KRA_APPS` table configuring only `app1`. -/
def appsA : List (String × AppConfig) := [("app1", cfgA)]

/-- A well-formed token-endpoint response carrying
`{"access_token": "tokA"}`. -/
def tokenRespA : HttpResponse :=
  ⟨200, [], "\x7b\"access_token\": \"tokA\"\x7d", some (.obj [("access_token", .str "tokA")])⟩

/-- A 504 Gateway Timeout response (non-JSON body). -/
def r504 : HttpResponse := ⟨504, [], "gateway timeout", none⟩

/-- A 200 response whose body is `{"ok": true}`. -/
def rOkTrue : HttpResponse := ⟨200, [], "\x7b\"ok\": true\x7d", some (.obj [("ok", .bool true)])⟩

/-- A 401 Unauthorized response. -/
def r401 : HttpResponse := ⟨401, [], "unauthorized", none⟩

/-- A 403 Forbidden response with `x-request-id` and `date` headers set. -/
def r403 : HttpResponse :=
  ⟨403, [("x-request-id", "req-7"), ("date", "Mon, 01 Jan 2024 00:00:00 GMT")], "forbidden", none⟩

/-- A token-endpoint success response whose body is a bare token string that
is not valid JSON (so `response.json()` raises). -/
def rBare : HttpResponse := ⟨200, [], "sandbox-bare-token", none⟩

/-- A token-endpoint success response with an empty body
(`response.json()` raises and the trimmed text is empty). -/
def rEmpty : HttpResponse := ⟨200, [], "", none⟩

/-- Environment for the 504-504-504-200 scenario of the spec. -/
def env6 : CallEnv :=
  ⟨appsA, fun _ => some tokenRespA, fun k => if k < 3 then .response r504 else .response rOkTrue, 0⟩

/-- Environment in which every POST is answered with 401 and the token
endpoint always works. -/
def env401 : CallEnv := ⟨appsA, fun _ => some tokenRespA, fun _ => .response r401, 0⟩

/-- Environment in which every POST times out. -/
def envTO : CallEnv := ⟨appsA, fun _ => some tokenRespA, fun _ => .timeout, 0⟩

/-- Environment for the single-401-then-200 scenario. -/
def env5 : CallEnv :=
  ⟨appsA, fun _ => some tokenRespA, fun k => if k = 0 then .response r401 else .response rOkTrue, 0⟩

/-- Environment whose first POST is answered with 403. -/
def env7 : CallEnv := ⟨appsA, fun _ => some tokenRespA, fun _ => .response r403, 0⟩

/-- A cache holding an unexpired token `"T1"` for `app1` (expiry 100, read at
time 0). -/
def storeT1 : Cache := [("kra_token_app1", (Json.str "T1", 100))]

/-! Helper lemmas about `fetch_kra_token`. -/

/-- With `force_refresh = False` and an unexpired truthy cached token,
`fetch_kra_token` returns the cached token, leaves the cache unchanged and
issues no network call. -/
theorem fetch_cache_hit (apps : List (String × AppConfig)) (resp : Option HttpResponse)
    (store : Cache) (now : Nat) (app_name : String) (tok : Json)
    (hc : cacheGet store now (cache_key app_name) = some tok) (ht : tok.truthy = true) :
    fetch_kra_token apps resp store now app_name false = ⟨.ok tok, store, 0⟩ := by
  simp [fetch_kra_token, hc, ht]

/-- With `force_refresh = True`, a configured app and a usable success
response, `fetch_kra_token` returns the extracted token, caches it for 3600
seconds and issues exactly one network call. -/
theorem fetch_forced_ok (apps : List (String × AppConfig)) (store : Cache) (now : Nat)
    (app_name : String) (r : HttpResponse) (cfg : AppConfig) (tok : Json)
    (hcfg : lookupStr apps app_name = some cfg)
    (hok : responseOk r = true) (hext : extract_access_token r = some tok) :
    fetch_kra_token apps (some r) store now app_name true
      = ⟨.ok tok, cacheSet store (cache_key app_name) tok (now + 3600), 1⟩ := by
  simp [fetch_kra_token, hcfg, hok, hext]

/-- For a configured app and a usable success response, `fetch_kra_token`
succeeds for either value of `force_refresh` (serving the cache or hitting
the network). -/
theorem fetch_ok_exists (apps : List (String × AppConfig)) (store : Cache) (now : Nat)
    (app_name : String) (force : Bool) (r : HttpResponse)
    (happ : (lookupStr apps app_name).isSome = true) (hok : responseOk r = true)
    (hext : (extract_access_token r).isSome = true) :
    ∃ tok store2 n, fetch_kra_token apps (some r) store now app_name force
      = ⟨.ok tok, store2, n⟩ := by
  obtain ⟨cfg, hcfg⟩ := Option.isSome_iff_exists.mp happ
  obtain ⟨tok, hext2⟩ := Option.isSome_iff_exists.mp hext
  cases force with
  | true =>
      exact ⟨tok, cacheSet store (cache_key app_name) tok (now + 3600), 1,
        fetch_forced_ok apps store now app_name r cfg tok hcfg hok hext2⟩
  | false =>
      cases hc : cacheGet store now (cache_key app_name) with
      | none =>
          exact ⟨tok, cacheSet store (cache_key app_name) tok (now + 3600), 1,
            by simp [fetch_kra_token, hc, hcfg, hok, hext2]⟩
      | some t =>
          cases ht : t.truthy with
          | true => exact ⟨t, store, 0, by simp [fetch_kra_token, hc, ht]⟩
          | false =>
              exact ⟨tok, cacheSet store (cache_key app_name) tok (now + 3600), 1,
                by simp [fetch_kra_token, hc, ht, hcfg, hok, hext2]⟩

/-- Looking up the key just written by `cacheSet` yields the new value and
expiry. -/
theorem lookup_cacheSet (store : Cache) (key : String) (tok : Json) (expires_at : Nat) :
    lookupStr (cacheSet store key tok expires_at) key = some (tok, expires_at) := by
  simp [cacheSet, lookupStr]

/-! Helper lemmas about the retry loop. -/

/-- With every POST answered 401 and every token refresh succeeding, each
loop iteration continues without touching the retry counter, so the loop is
still spinning after any amount of fuel. -/
theorem runLoop_all401 (env : CallEnv) (app_name : String) (mr : Nat)
    (happ : (lookupStr env.apps app_name).isSome = true)
    (hpost : ∀ k, ∃ r, env.posts k = PostOutcome.response r ∧ r.status = 401)
    (htok : ∀ k, ∃ r, env.tokenResponses k = some r ∧ responseOk r = true ∧
      (extract_access_token r).isSome = true) :
    ∀ fuel s, ∃ s2, runLoop env app_name mr fuel s = .spinning s2 ∧ s2.retries = s.retries := by
  intro fuel
  induction fuel with
  | zero => intro s; exact ⟨s, rfl, rfl⟩
  | succ n ih =>
    intro s
    obtain ⟨r, hr, h401⟩ := hpost s.pIdx
    obtain ⟨rt, hrt, hok, hext⟩ := htok s.tIdx
    obtain ⟨cfg, hcfg⟩ := Option.isSome_iff_exists.mp happ
    obtain ⟨tok, hext2⟩ := Option.isSome_iff_exists.mp hext
    have hfetch := fetch_forced_ok env.apps s.store env.now app_name rt cfg tok hcfg hok hext2
    have hbody : loopBody env app_name mr s = .next
        { issued s with
            headers := { (issued s).headers with authToken := tok }
            store := cacheSet s.store (cache_key app_name) tok (env.now + 3600)
            tIdx := s.tIdx + 1
            refreshes := s.refreshes + 1 } := by
      simp [loopBody, hr, h401, hrt, hfetch]
    obtain ⟨s2, hrun, hret⟩ := ih
      { issued s with
          headers := { (issued s).headers with authToken := tok }
          store := cacheSet s.store (cache_key app_name) tok (env.now + 3600)
          tIdx := s.tIdx + 1
          refreshes := s.refreshes + 1 }
    refine ⟨s2, ?_, ?_⟩
    · rw [runLoop, hbody]; exact hrun
    · rw [hret]; rfl

/-- With every POST timing out, the loop increments the retry counter each
iteration and raises the maximum-retries exception after issuing exactly
`mr - s.retries` further POSTs. -/
theorem runLoop_allTimeout (env : CallEnv) (app_name : String) (mr : Nat)
    (hpost : ∀ k, env.posts k = PostOutcome.timeout) :
    ∀ fuel s, s.retries < mr → mr - s.retries ≤ fuel →
    ∃ s2, runLoop env app_name mr fuel s = .raised .maxRetriesReached s2 ∧
      s2.postLog.length = s.postLog.length + (mr - s.retries) ∧ s2.retries = mr := by
  intro fuel
  induction fuel with
  | zero => intro s h1 h2; omega
  | succ n ih =>
    intro s h1 h2
    have hbody := hpost s.pIdx
    by_cases hle : mr ≤ s.retries + 1
    · have hmr : mr = s.retries + 1 := by omega
      refine ⟨{ issued s with retries := s.retries + 1 }, ?_, ?_, ?_⟩
      · rw [runLoop]; simp [loopBody, hbody, hle]
      · simp [issued]; omega
      · simp; omega
    · have hstep : loopBody env app_name mr s
          = .next { issued s with retries := s.retries + 1 } := by
        simp [loopBody, hbody, hle]
      obtain ⟨s2, hrun, hlen, hret⟩ := ih { issued s with retries := s.retries + 1 }
        (show s.retries + 1 < mr by omega)
        (show mr - (s.retries + 1) ≤ n by omega)
      refine ⟨s2, ?_, ?_, hret⟩
      · rw [runLoop, hstep]; exact hrun
      · simp [issued] at hlen
        omega

/-! Claim theorems. -/

/-- C1: for every app whose token endpoint replies with a success status, if
extracting a token from the response yields nothing usable (no
`access_token` field and an empty body, which is not decodable JSON),
`fetch_kra_token` fails with an `UpstreamAuthError` — the
failed-to-get-access-token exception — rather than returning a token, and
leaves the cache unchanged. -/
theorem c1_empty_extraction_fails (apps : List (String × AppConfig)) (store : Cache)
    (now : Nat) (app_name : String) (force : Bool) (r : HttpResponse)
    (happ : (lookupStr apps app_name).isSome = true)
    (hok : responseOk r = true) (_hbody : r.body = "") (hjson : r.json = none)
    (hmiss : ∀ t, cacheGet store now (cache_key app_name) = some t → t.truthy = false) :
    (fetch_kra_token apps (some r) store now app_name force).result
      = .error .failedToGetAccessToken ∧
    (fetch_kra_token apps (some r) store now app_name force).cache = store ∧
    FetchError.failedToGetAccessToken.isUpstreamAuthError = true := by
  obtain ⟨cfg, hcfg⟩ := Option.isSome_iff_exists.mp happ
  have hext : extract_access_token r = none := by simp [extract_access_token, hjson]
  cases force with
  | true =>
      refine ⟨?_, ?_, rfl⟩ <;> simp [fetch_kra_token, hcfg, hok, hext]
  | false =>
      cases hc : cacheGet store now (cache_key app_name) with
      | none => refine ⟨?_, ?_, rfl⟩ <;> simp [fetch_kra_token, hc, hcfg, hok, hext]
      | some t =>
          have ht := hmiss t hc
          refine ⟨?_, ?_, rfl⟩ <;> simp [fetch_kra_token, hc, ht, hcfg, hok, hext]

/-- Witness for C1 at a concrete input: a 200 token response with an empty
body against an empty cache. -/
theorem c1_witness :
    (fetch_kra_token appsA (some rEmpty) [] 0 "app1" false).result
      = .error .failedToGetAccessToken ∧
    (fetch_kra_token appsA (some rEmpty) [] 0 "app1" false).cache = [] ∧
    FetchError.failedToGetAccessToken.isUpstreamAuthError = true :=
  c1_empty_extraction_fails appsA [] 0 "app1" false rEmpty rfl rfl rfl rfl
    (fun _ h => Option.noConfusion h)

/-- C2 (code bug evaluation): a token-endpoint success response whose
non-empty body is a bare token string that is not valid JSON makes
`fetch_kra_token` raise the failed-to-get-access-token exception instead of
falling back to the trimmed raw body: `response.json()` raises before the
fallback branch (utils.py line 44) can run. -/
theorem c2_bare_token_body_raises :
    (fetch_kra_token appsA (some rBare) [] 0 "app1" false).result
      = .error .failedToGetAccessToken ∧
    (fetch_kra_token appsA (some rBare) [] 0 "app1" false).result
      ≠ .ok (.str rBare.body.trim) ∧
    responseOk rBare = true ∧ rBare.body ≠ "" := by
  refine ⟨rfl, ?_, rfl, by decide⟩
  intro h
  have h2 : (fetch_kra_token appsA (some rBare) [] 0 "app1" false).result
      = Except.error FetchError.failedToGetAccessToken := rfl
  rw [h2] at h
  exact Except.noConfusion h

/-- C8: with `force_refresh = False` and an unexpired (truthy) cached token
for the app, `fetch_kra_token` returns the cached value, issues no network
call and leaves the cache unchanged. -/
theorem c8_cache_hit_no_network (apps : List (String × AppConfig)) (resp : Option HttpResponse)
    (store : Cache) (now : Nat) (app_name : String) (tok : Json)
    (hc : cacheGet store now (cache_key app_name) = some tok) (ht : tok.truthy = true) :
    (fetch_kra_token apps resp store now app_name false).result = .ok tok ∧
    (fetch_kra_token apps resp store now app_name false).networkCalls = 0 ∧
    (fetch_kra_token apps resp store now app_name false).cache = store := by
  rw [fetch_cache_hit apps resp store now app_name tok hc ht]
  exact ⟨rfl, rfl, rfl⟩

/-- Witness for C8: a cache holding token `"T1"` for `app1`, still fresh at
time 0, is served without any network call. -/
theorem c8_witness :
    (fetch_kra_token appsA (some tokenRespA) storeT1 0 "app1" false).result
      = .ok (.str "T1") ∧
    (fetch_kra_token appsA (some tokenRespA) storeT1 0 "app1" false).networkCalls = 0 ∧
    (fetch_kra_token appsA (some tokenRespA) storeT1 0 "app1" false).cache = storeT1 :=
  c8_cache_hit_no_network appsA (some tokenRespA) storeT1 0 "app1" (.str "T1") rfl rfl

/-- C9: with `force_refresh = True`, for every cache state, `fetch_kra_token`
issues one network call and on success overwrites the cached entry for the
app with the new token and a 1-hour (3600 s) expiry. -/
theorem c9_forced_refresh_overwrites (apps : List (String × AppConfig)) (store : Cache)
    (now : Nat) (app_name : String) (r : HttpResponse) (tok : Json)
    (happ : (lookupStr apps app_name).isSome = true)
    (hok : responseOk r = true) (hext : extract_access_token r = some tok) :
    (fetch_kra_token apps (some r) store now app_name true).result = .ok tok ∧
    (fetch_kra_token apps (some r) store now app_name true).networkCalls = 1 ∧
    lookupStr (fetch_kra_token apps (some r) store now app_name true).cache
      (cache_key app_name) = some (tok, now + 3600) := by
  obtain ⟨cfg, hcfg⟩ := Option.isSome_iff_exists.mp happ
  rw [fetch_forced_ok apps store now app_name r cfg tok hcfg hok hext]
  exact ⟨rfl, rfl, lookup_cacheSet store (cache_key app_name) tok (now + 3600)⟩

/-- A cache holding an unexpired token `"OLD"` for `app1` (expiry 999, read
at time 0), used to show forced refresh ignores freshness. -/
def storeOld : Cache := [("kra_token_app1", (Json.str "OLD", 999))]

/-- Witness for C9: even with a fresh cached token `"OLD"`, a forced refresh
hits the network and overwrites the entry with `"tokA"`. -/
theorem c9_witness :
    (fetch_kra_token appsA (some tokenRespA) storeOld 0 "app1" true).result
      = .ok (.str "tokA") ∧
    (fetch_kra_token appsA (some tokenRespA) storeOld 0 "app1" true).networkCalls = 1 ∧
    lookupStr (fetch_kra_token appsA (some tokenRespA) storeOld 0 "app1" true).cache
      (cache_key "app1") = some (.str "tokA", 0 + 3600) :=
  c9_forced_refresh_overwrites appsA storeOld 0 "app1" tokenRespA (.str "tokA") rfl rfl rfl

/-- C10: a successful POST to the `/token/` endpoint always fetches a fresh
token — the view calls `fetch_kra_token` with `force_refresh=True` — so for
every cache state (including a non-expired cached token) it issues a network
call, overwrites the cached entry for the selected app, and returns the
freshly fetched token, never one served from cache. -/
theorem c10_token_view_always_fresh (apps : List (String × AppConfig)) (store : Cache)
    (now : Nat) (appField : Option String) (app_name : String) (r : HttpResponse) (tok : Json)
    (hv : validate_token_request appField = some app_name)
    (happ : (lookupStr apps app_name).isSome = true)
    (hok : responseOk r = true) (hext : extract_access_token r = some tok) :
    (get_token_view_post apps (some r) store now appField).response = .ok200 tok ∧
    (get_token_view_post apps (some r) store now appField).networkCalls = 1 ∧
    lookupStr (get_token_view_post apps (some r) store now appField).store
      (cache_key app_name) = some (tok, now + 3600) := by
  obtain ⟨cfg, hcfg⟩ := Option.isSome_iff_exists.mp happ
  have hfetch := fetch_forced_ok apps store now app_name r cfg tok hcfg hok hext
  refine ⟨?_, ?_, ?_⟩ <;> simp [get_token_view_post, hv, hfetch, lookup_cacheSet]

/-- Witness for C10: a `/token/` POST selecting `app1` while a fresh token
`"T1"` is cached still returns the freshly fetched `"tokA"` and overwrites
the cache. -/
theorem c10_witness :
    (get_token_view_post appsA (some tokenRespA) storeT1 0 (some "app1")).response
      = .ok200 (.str "tokA") ∧
    (get_token_view_post appsA (some tokenRespA) storeT1 0 (some "app1")).networkCalls = 1 ∧
    lookupStr (get_token_view_post appsA (some tokenRespA) storeT1 0 (some "app1")).store
      (cache_key "app1") = some (.str "tokA", 0 + 3600) :=
  c10_token_view_always_fresh appsA storeT1 0 (some "app1") "app1" tokenRespA (.str "tokA")
    rfl rfl rfl rfl

/-- C3 counterexample: with `max_retries = 2` and every POST timing out,
`call_kra_endpoint` issues 2 POSTs in total — the first attempt plus one
re-issue, not the 2 re-issues (3 POSTs) the claim asserts — and then fails
with the maximum-retries error. -/
theorem c3_counterexample :
    (call_kra_endpoint envTO [] "app1" 2 10).postLog.length = 2 ∧
    (call_kra_endpoint envTO [] "app1" 2 10).postLog.length ≠ 2 + 1 ∧
    (call_kra_endpoint envTO [] "app1" 2 10).result = .error .maxRetriesReached := by
  have h : (call_kra_endpoint envTO [] "app1" 2 10).postLog.length = 2 := rfl
  exact ⟨h, by omega, rfl⟩

/-- C3 amended: for every `max_retries > 0`, if every POST times out, the
call issues exactly `max_retries` POSTs in total (the first attempt plus
`max_retries - 1` re-issues) and then fails with the
maximum-retries-reached error. -/
theorem c3_amended_total_posts (env : CallEnv) (store : Cache) (app_name : String)
    (mr fuel : Nat) (hmr : 0 < mr) (hfuel : mr ≤ fuel)
    (happ : (lookupStr env.apps app_name).isSome = true)
    (htok0 : ∃ r, env.tokenResponses 0 = some r ∧ responseOk r = true ∧
      (extract_access_token r).isSome = true)
    (hpost : ∀ k, env.posts k = PostOutcome.timeout) :
    (call_kra_endpoint env store app_name mr fuel).result = .error .maxRetriesReached ∧
    (call_kra_endpoint env store app_name mr fuel).postLog.length = mr := by
  obtain ⟨r0, hr0, hok0, hext0⟩ := htok0
  obtain ⟨tok, store2, n, hf0⟩ :=
    fetch_ok_exists env.apps store env.now app_name false r0 happ hok0 hext0
  have hmr0 : mr ≠ 0 := by omega
  obtain ⟨s2, hrun, hlen, hret⟩ := runLoop_allTimeout env app_name mr hpost fuel
    ⟨0, mkHeaders tok, store2, n, 0, [], 0⟩ hmr (show mr - 0 ≤ fuel by omega)
  constructor
  · simp [call_kra_endpoint, hr0, hf0, hmr0, hrun]
  · simp [call_kra_endpoint, hr0, hf0, hmr0, hrun]
    simp at hlen
    omega

/-- Witness for the amended C3: `max_retries = 2`, every POST times out:
exactly 2 POSTs and the maximum-retries error. -/
theorem c3_witness :
    (call_kra_endpoint envTO [] "app1" 2 10).result = .error .maxRetriesReached ∧
    (call_kra_endpoint envTO [] "app1" 2 10).postLog.length = 2 :=
  c3_amended_total_posts envTO [] "app1" 2 10 (by omega) (by omega) rfl
    ⟨tokenRespA, rfl, rfl, rfl⟩ (fun _ => rfl)

/-- C4 counterexample: with `max_retries = 0` the while body never runs, so
even with every POST answered 401 the loop terminates at once — the call
returns (raising the `NameError` on the unbound `response` variable) instead
of looping forever. -/
theorem c4_counterexample :
    (call_kra_endpoint env401 [] "app1" 0 5).result = .error .nameErrorResponse ∧
    (call_kra_endpoint env401 [] "app1" 0 5).result ≠ .diverged := by
  refine ⟨rfl, ?_⟩
  intro h
  have h2 : (call_kra_endpoint env401 [] "app1" 0 5).result = .error .nameErrorResponse := rfl
  rw [h2] at h
  exact CallResult.noConfusion h

/-- C4 amended: for every `max_retries ≥ 1`, if every POST is answered 401
and every forced token refresh succeeds, the retry loop never terminates —
for every fuel bound the call is still spinning — and the retry counter
stays 0, so the retry budget is never consumed. -/
theorem c4_amended_loops_forever (env : CallEnv) (store : Cache) (app_name : String)
    (mr fuel : Nat) (hmr : 1 ≤ mr)
    (happ : (lookupStr env.apps app_name).isSome = true)
    (hpost : ∀ k, ∃ r, env.posts k = PostOutcome.response r ∧ r.status = 401)
    (htok : ∀ k, ∃ r, env.tokenResponses k = some r ∧ responseOk r = true ∧
      (extract_access_token r).isSome = true) :
    (call_kra_endpoint env store app_name mr fuel).result = .diverged ∧
    (call_kra_endpoint env store app_name mr fuel).retries = 0 := by
  obtain ⟨r0, hr0, hok0, hext0⟩ := htok 0
  obtain ⟨tok, store2, n, hf0⟩ :=
    fetch_ok_exists env.apps store env.now app_name false r0 happ hok0 hext0
  have hmr0 : mr ≠ 0 := by omega
  obtain ⟨s2, hrun, hret⟩ := runLoop_all401 env app_name mr happ hpost htok fuel
    ⟨0, mkHeaders tok, store2, n, 0, [], 0⟩
  constructor <;> simp [call_kra_endpoint, hr0, hf0, hmr0, hrun, hret]

/-- Witness for the amended C4: `max_retries = 1`, every POST 401, refreshes
succeeding: still spinning after 3 iterations, retry counter 0. -/
theorem c4_witness :
    (call_kra_endpoint env401 [] "app1" 1 3).result = .diverged ∧
    (call_kra_endpoint env401 [] "app1" 1 3).retries = 0 :=
  c4_amended_loops_forever env401 [] "app1" 1 3 (by omega) rfl
    (fun _ => ⟨r401, rfl, rfl⟩) (fun _ => ⟨tokenRespA, rfl, rfl, rfl⟩)

/-- C5: if the first POST is answered 401 and the re-issued POST 200, the
call force-refreshes the token exactly once, sends the second POST with the
new token in the Authorization header, consumes no retry-count increment,
and returns the 200 response's parsed JSON body. -/
theorem c5_single_401_refresh (env : CallEnv) (store : Cache) (app_name : String)
    (mr fuel : Nat) (r1 r2 rt : HttpResponse) (t0 t1 j : Json)
    (hmr : 1 ≤ mr) (hfuel : 2 ≤ fuel)
    (hc : cacheGet store env.now (cache_key app_name) = some t0) (ht0 : t0.truthy = true)
    (happ : (lookupStr env.apps app_name).isSome = true)
    (hp0 : env.posts 0 = .response r1) (h401 : r1.status = 401)
    (hp1 : env.posts 1 = .response r2) (h200 : r2.status = 200) (hj : r2.json = some j)
    (hrt : env.tokenResponses 0 = some rt) (hrtok : responseOk rt = true)
    (hext : extract_access_token rt = some t1) :
    (call_kra_endpoint env store app_name mr fuel).result = .ok j ∧
    (call_kra_endpoint env store app_name mr fuel).refreshes = 1 ∧
    (call_kra_endpoint env store app_name mr fuel).retries = 0 ∧
    (call_kra_endpoint env store app_name mr fuel).postLog
      = [mkHeaders t0, mkHeaders t1] := by
  obtain ⟨fuel2, rfl⟩ : ∃ k, fuel = k + 2 := ⟨fuel - 2, by omega⟩
  obtain ⟨cfg, hcfg⟩ := Option.isSome_iff_exists.mp happ
  have hf0 := fetch_cache_hit env.apps (env.tokenResponses 0) store env.now app_name t0 hc ht0
  have hmr0 : mr ≠ 0 := by omega
  have hfetch := fetch_forced_ok env.apps store env.now app_name rt cfg t1 hcfg hrtok hext
  have h1 : loopBody env app_name mr ⟨0, mkHeaders t0, store, 0, 0, [], 0⟩
      = .next ⟨0, mkHeaders t1, cacheSet store (cache_key app_name) t1 (env.now + 3600),
          1, 1, [mkHeaders t0], 1⟩ := by
    simp [loopBody, hp0, h401, hrt, hfetch, issued, mkHeaders]
  have h2 : loopBody env app_name mr
      ⟨0, mkHeaders t1, cacheSet store (cache_key app_name) t1 (env.now + 3600),
        1, 1, [mkHeaders t0], 1⟩
      = .broke r2 ⟨0, mkHeaders t1, cacheSet store (cache_key app_name) t1 (env.now + 3600),
          1, 2, [mkHeaders t0, mkHeaders t1], 1⟩ := by
    simp [loopBody, hp1, h200, issued, mkHeaders]
  have hok2 : responseOk r2 = true := by simp [responseOk, h200]
  refine ⟨?_, ?_, ?_, ?_⟩ <;>
    simp [call_kra_endpoint, hf0, hmr0, runLoop, h1, h2, hok2, hj]

/-- Witness for C5: cached token `"T1"`, first POST 401, refresh yields
`"tokA"`, second POST 200 `{"ok": true}`. -/
theorem c5_witness :
    (call_kra_endpoint env5 storeT1 "app1" 5 10).result = .ok (.obj [("ok", Json.bool true)]) ∧
    (call_kra_endpoint env5 storeT1 "app1" 5 10).refreshes = 1 ∧
    (call_kra_endpoint env5 storeT1 "app1" 5 10).retries = 0 ∧
    (call_kra_endpoint env5 storeT1 "app1" 5 10).postLog
      = [mkHeaders (.str "T1"), mkHeaders (.str "tokA")] :=
  c5_single_401_refresh env5 storeT1 "app1" 5 10 r401 rOkTrue tokenRespA
    (.str "T1") (.str "tokA") (.obj [("ok", Json.bool true)])
    (by omega) (by omega) rfl rfl rfl rfl rfl rfl rfl rfl rfl rfl rfl

/-- C6: with `max_retries = 5`, three consecutive 504 responses followed by
a 200 with body `{"ok": true}` make `call_kra_endpoint` issue exactly 4
POSTs in total and return `{"ok": true}`. -/
theorem c6_scenario_504_then_ok :
    (call_kra_endpoint env6 [] "app1" 5 10).postLog.length = 4 ∧
    (call_kra_endpoint env6 [] "app1" 5 10).result = .ok (.obj [("ok", Json.bool true)]) :=
  ⟨rfl, rfl⟩

/-- C7: a first response whose status is neither 401 nor 504 (nor a
timeout) makes the call exit the retry loop immediately — one POST issued,
retry counter still 0 — and when that status is not a success status it
fails with the structured UpstreamError payload: `requestId` from the
`x-request-id` header or `"unknown"`, `code` the HTTP status, `message` the
response body text, `timestamp` from the `date` header or `"unknown"`. -/
theorem c7_immediate_exit (env : CallEnv) (store : Cache) (app_name : String)
    (mr fuel : Nat) (r : HttpResponse) (t0 : Json)
    (hmr : 1 ≤ mr) (hfuel : 1 ≤ fuel)
    (hc : cacheGet store env.now (cache_key app_name) = some t0) (ht0 : t0.truthy = true)
    (hp0 : env.posts 0 = .response r) (h401 : r.status ≠ 401) (h504 : r.status ≠ 504) :
    (call_kra_endpoint env store app_name mr fuel).postLog.length = 1 ∧
    (call_kra_endpoint env store app_name mr fuel).retries = 0 ∧
    (responseOk r = false →
      (call_kra_endpoint env store app_name mr fuel).result = .error (.upstreamError
        ⟨(headersGet r.headers "x-request-id").getD "unknown", r.status, r.body,
         (headersGet r.headers "date").getD "unknown"⟩)) := by
  obtain ⟨fuel2, rfl⟩ : ∃ k, fuel = k + 1 := ⟨fuel - 1, by omega⟩
  have hf0 := fetch_cache_hit env.apps (env.tokenResponses 0) store env.now app_name t0 hc ht0
  have hmr0 : mr ≠ 0 := by omega
  have h1 : loopBody env app_name mr ⟨0, mkHeaders t0, store, 0, 0, [], 0⟩
      = .broke r ⟨0, mkHeaders t0, store, 0, 1, [mkHeaders t0], 0⟩ := by
    simp [loopBody, hp0, h401, h504, issued, mkHeaders]
  by_cases hok : responseOk r = true
  · refine ⟨?_, ?_, ?_⟩
    · cases hj : r.json with
      | some j => simp [call_kra_endpoint, hf0, hmr0, runLoop, h1, hok, hj]
      | none => simp [call_kra_endpoint, hf0, hmr0, runLoop, h1, hok, hj]
    · cases hj : r.json with
      | some j => simp [call_kra_endpoint, hf0, hmr0, runLoop, h1, hok, hj]
      | none => simp [call_kra_endpoint, hf0, hmr0, runLoop, h1, hok, hj]
    · intro hfalse
      rw [hok] at hfalse
      exact Bool.noConfusion hfalse
  · rw [Bool.not_eq_true] at hok
    refine ⟨?_, ?_, fun _ => ?_⟩ <;>
      simp [call_kra_endpoint, hf0, hmr0, runLoop, h1, hok, mkErrorDetails]

/-- Witness for C7: cached token `"T1"`, first POST answered 403 with
request-id and date headers set: one POST, no retries consumed, and the
structured 403 UpstreamError. -/
theorem c7_witness :
    (call_kra_endpoint env7 storeT1 "app1" 5 10).postLog.length = 1 ∧
    (call_kra_endpoint env7 storeT1 "app1" 5 10).retries = 0 ∧
    (responseOk r403 = false →
      (call_kra_endpoint env7 storeT1 "app1" 5 10).result = .error (.upstreamError
        ⟨(headersGet r403.headers "x-request-id").getD "unknown", r403.status, r403.body,
         (headersGet r403.headers "date").getD "unknown"⟩)) :=
  c7_immediate_exit env7 storeT1 "app1" 5 10 r403 (.str "T1")
    (by omega) (by omega) rfl rfl rfl (by decide) (by decide)

end KraApi
